import Mathlib

/-
Verification of the worksheet-generator pipeline (ged_worksheet_workflow.py,
"v1", and ged_worksheet_workflow_2.py, "v2").

The embedding is shallow: the extraction helpers (_extract_code,
_extract_json) are modelled directly on lists of characters, with the regex
`r'```{language}\n(.*?)\n```'` (re.DOTALL, lazy group) embedded as a
literal-substring scan, which is its exact semantics for the language tags
the program uses (python, json, latex: no regex metacharacters).  Stateful
and effectful stages (subprocess execution, network calls, json.loads) are
modelled by explicit outcome parameters: a stage takes the outcome of each
external interaction as an argument and the model reproduces the source's
control flow (try/except/finally, exception classes, fallbacks) over those
outcomes.  Python exception classes become the inductive PyErr; the class
hierarchy facts the handlers rely on (json.JSONDecodeError <: ValueError,
every raised class <: Exception) are encoded in the tuple-matching
functions.
-/

/-! ## Python string helpers -/

/-- Whitespace stripped by Python's str.strip() (the ASCII cases). -/
def pyWS (c : Char) : Bool :=
  c == ' ' || c == '\t' || c == '\n' || c == '\r' || c == '\x0b' || c == '\x0c'

/-- Python str.strip() on a list of characters. -/
def pstrip (l : List Char) : List Char :=
  ((l.dropWhile pyWS).reverse.dropWhile pyWS).reverse

/-- Python str.strip() on a String. -/
def pyStrip (s : String) : String := ⟨pstrip s.data⟩

/-- Boolean prefix test (Python str.startswith on a character list). -/
def lpre : List Char → List Char → Bool
  | [], _ => true
  | _ :: _, [] => false
  | a :: as, b :: bs => a == b && lpre as bs

/-- Boolean suffix test (Python str.endswith on a character list). -/
def lsuf (pat l : List Char) : Bool := lpre pat.reverse l.reverse

/-- First index at which `pat` occurs as a contiguous sublist of the text,
scanning left to right (the semantics of a lazy regex search for a literal). -/
def substrIdx (pat : List Char) : List Char → Option Nat
  | [] => if pat.isEmpty then some 0 else none
  | c :: rest =>
    if lpre pat (c :: rest) then some 0
    else (substrIdx pat rest).map (· + 1)

/-- Search for `op ++ (group) ++ cl` with a lazy group: the match starts at
the leftmost position where `op` occurs and is followed (at or after the end
of `op`) by an occurrence of `cl`; the group is everything up to the first
such occurrence of `cl`.  This is the semantics of re.search on the pattern
`op(.*?)cl` with re.DOTALL when `op` and `cl` are literal. -/
def fenceSearch (op cl : List Char) : List Char → Option (List Char)
  | [] => none
  | c :: rest =>
    if lpre op (c :: rest) then
      match substrIdx cl ((c :: rest).drop op.length) with
      | some j => some (((c :: rest).drop op.length).take j)
      | none => fenceSearch op cl rest
    else fenceSearch op cl rest

/-! ## The Response Extractor (_extract_code, _extract_json) -/

/-- Three backtick characters. -/
def tickL : List Char := ['`', '`', '`']

/-- The closing fence pattern of the regex: a newline then three backticks. -/
def closerL : List Char := '\n' :: tickL

/-- The opening fence pattern of the regex for a language tag: three
backticks, the tag, a newline. -/
def openerL (tagL : List Char) : List Char := tickL ++ tagL ++ ['\n']

/-- The body of _extract_code on character lists.  Mirrors the source:
(1) search for the first tagged fenced block and return its interior,
stripped; (2) otherwise, if the stripped text starts and ends with three
backticks, drop three characters from each end (Python's `[3:-3]`) and
strip; (3) otherwise return the text unchanged (not stripped). -/
def extractCodeL (textL tagL : List Char) : List Char :=
  match fenceSearch (openerL tagL) closerL textL with
  | some grp => pstrip grp
  | none =>
    let st := pstrip textL
    if lpre tickL st && lsuf tickL st then
      pstrip ((st.drop 3).take (st.length - 6))
    else textL

/-- Model of _extract_code (identical in v1 and v2). -/
def extract_code (text language : String) : String :=
  ⟨extractCodeL text.data language.data⟩

/-- Model of _extract_json (identical control flow in v1 and v2),
parameterised by the behaviour of the external json.loads on this run:
`loads s = some v` models a successful parse, `none` a JSONDecodeError.
First json.loads is tried on `_extract_code(text, 'json')`; on failure it is
tried on the whole original text; `none` overall models the re-raised
JSONDecodeError. -/
def extract_json {J : Type} (loads : String → Option J) (text : String) : Option J :=
  match loads (extract_code text "json") with
  | some v => some v
  | none => loads text

/-- The text `s` wrapped in a fence tagged `tag`: three backticks, the tag, a
newline, then `s`, a newline and three backticks. -/
def wrapFence (s tag : String) : String :=
  ⟨openerL tag.data ++ s.data ++ closerL⟩

/-! ## Error taxonomy

Each constructor is one of the Python exception classes the two workflow
files raise or catch. -/

/-- Python exceptions arising in the pipeline.  calledProcessError carries
the captured stdout and stderr; jsonDecodeError carries the document that
failed to parse (JSONDecodeError.doc). -/
inductive PyErr where
  | valueError
  | fileNotFoundError
  | requestException
  | calledProcessError (stdout stderr : String)
  | jsonDecodeError (doc : String)
  | keyError
  | attributeError
  | nameError
  | otherException
  deriving DecidableEq, Repr

/-- Whether the exception is caught by main's first handler,
`except (ValueError, FileNotFoundError, requests.exceptions.RequestException,
subprocess.CalledProcessError)`.  json.JSONDecodeError subclasses ValueError,
so it matches this tuple; requests.exceptions.Timeout subclasses
RequestException and is represented by `requestException`. -/
def matchesCriticalTuple : PyErr → Bool
  | .valueError => true
  | .fileNotFoundError => true
  | .requestException => true
  | .calledProcessError _ _ => true
  | .jsonDecodeError _ => true
  | _ => false

/-- Whether the exception class derives from Python's Exception (as opposed
to BaseException).  Every class the workflow raises does. -/
def derivesException : PyErr → Bool
  | .valueError => true
  | .fileNotFoundError => true
  | .requestException => true
  | .calledProcessError _ _ => true
  | .jsonDecodeError _ => true
  | .keyError => true
  | .attributeError => true
  | .nameError => true
  | .otherException => true

/-- Whether the exception is caught by the v2 reviewer's handler,
`except (json.JSONDecodeError, KeyError, AttributeError)`. -/
def caughtByReview : PyErr → Bool
  | .jsonDecodeError _ => true
  | .keyError => true
  | .attributeError => true
  | _ => false

/-- True exactly on error results. -/
def isErrorE {α : Type} : Except PyErr α → Bool
  | .error _ => true
  | .ok _ => false

/-! ## Decoded plot metadata (the ProgramResult) -/

/-- One plot-metadata dictionary as the generated program prints it.  The
fields are looked up with .get (absent modelled as none); `mcqs` is carried
opaquely. -/
structure Plot where
  path : Option String
  description : Option String
  mcqs : List String
  deriving DecidableEq, Repr

/-- The JSON value json.loads produces from the generated program's stdout
(and that flows through the pipeline as plots_json): a dict whose "plots"
key may be absent, a bare list, or any other JSON value. -/
inductive Decoded where
  | dict (plots : Option (List Plot))
  | list (plots : List Plot)
  | other
  deriving DecidableEq, Repr

/-- Evaluation of `plots_json.get('plots', [])` (both reviewers' prompt
building): on a dict it yields the field or the default []; on a list or any
other non-dict value Python raises AttributeError (no .get method). -/
def plotsGetPlots : Decoded → Except PyErr (List Plot)
  | .dict p => .ok (p.getD [])
  | .list _ => .error .attributeError
  | .other => .error .attributeError

/-! ## The Sandbox Executor (generate_plots) -/

/-- The outcome of `subprocess.run(['python', TEMP_PLOT_SCRIPT], ...)`:
either the spawn itself raised (for example FileNotFoundError when the
interpreter is missing), or the child exited with a code and captured
stdout/stderr. -/
inductive SpawnOutcome where
  | spawnExn (e : PyErr)
  | exited (exitCode : Nat) (stdout stderr : String)
  deriving DecidableEq, Repr

/-- Python try/finally over a one-file scratch filesystem (the Bool is
whether temp_plot_script.py exists): the finalizer runs on every exit path
of the body, successful or raising, before the call returns or the
exception propagates. -/
def pyTryFinally {α : Type} (body : Bool → Except PyErr α × Bool)
    (fin : Bool → Bool) (fs0 : Bool) : Except PyErr α × Bool :=
  ((body fs0).1, fin (body fs0).2)

/-- The finally block `if os.path.exists(TEMP_PLOT_SCRIPT):
os.remove(TEMP_PLOT_SCRIPT)`. -/
def removeIfExists (fs : Bool) : Bool := if fs then false else fs

/-- The try-block of v1's generate_plots: with check=True a non-zero exit
raises CalledProcessError (printed, then re-raised); on zero exit the stdout
is parsed with json.loads; a parse failure prints the raw output and
re-raises the JSONDecodeError (which carries the stdout as its doc). -/
def plots_body_v1 (spawn : SpawnOutcome) (loads : String → Option Decoded) :
    Except PyErr Decoded :=
  match spawn with
  | .spawnExn e => .error e
  | .exited code stdout stderr =>
    if code = 0 then
      match loads stdout with
      | some v => .ok v
      | none => .error (.jsonDecodeError stdout)
    else .error (.calledProcessError stdout stderr)

/-- The try-block of v2's generate_plots: identical except that a parse
failure of the stdout prints a warning with the raw output and returns the
literal `{"plots": []}` instead of raising. -/
def plots_body_v2 (spawn : SpawnOutcome) (loads : String → Option Decoded) :
    Except PyErr Decoded :=
  match spawn with
  | .spawnExn e => .error e
  | .exited code stdout stderr =>
    if code = 0 then
      match loads stdout with
      | some v => .ok v
      | none => .ok (.dict (some []))
    else .error (.calledProcessError stdout stderr)

/-- v1 generate_plots after the scratch file has been written (the Bool
component is whether temp_plot_script.py still exists once the call
returns or its exception propagates). -/
def generate_plots_v1 (spawn : SpawnOutcome) (loads : String → Option Decoded) :
    Except PyErr Decoded × Bool :=
  pyTryFinally (fun fs => (plots_body_v1 spawn loads, fs)) removeIfExists true

/-- v2 generate_plots, same scratch-file lifecycle as v1. -/
def generate_plots_v2 (spawn : SpawnOutcome) (loads : String → Option Decoded) :
    Except PyErr Decoded × Bool :=
  pyTryFinally (fun fs => (plots_body_v2 spawn loads, fs)) removeIfExists true

/-! ## Stage models: worksheet generation and review -/

/-- The reviewer's decoded JSON object, as far as control flow reads it:
the 'revised_latex' field (absent modelled as none).  'issues_found' is only
printed and does not affect the result. -/
structure ReviewJson where
  revised : Option String
  deriving DecidableEq, Repr

/-- v2 generate_full_worksheet given the plots value and the outcome of its
capability call.  plot_list mirrors the robustness branch (dict .get with
default, bare list, anything else empty).  Building the prompt f-string
evaluates `plot['path']` outside the plot loop, so with an empty plot_list
the name `plot` is unbound (NameError) and with a last plot lacking 'path'
the subscript raises KeyError; both happen before the capability call.  On
success the artifact is the latex-extraction of the raw response. -/
def generate_full_worksheet_v2 (plots_json : Decoded) (call : Except PyErr String) :
    Except PyErr String :=
  let plot_list : List Plot :=
    match plots_json with
    | .dict p => p.getD []
    | .list l => l
    | .other => []
  match plot_list.getLast? with
  | none => .error .nameError
  | some p =>
    match p.path with
    | none => .error .keyError
    | some _ =>
      match call with
      | .error e => .error e
      | .ok resp => .ok (extract_code resp "latex")

/-- v1 review_worksheet (no try/except): its prompt evaluates
`plots_json.get('plots', [])`, then the capability is called, the response
is decoded with _extract_json, and `review_json['revised_latex']` is read
with a bare subscript (KeyError when absent).  Any failure propagates. -/
def review_worksheet_v1 (plots_json : Decoded) (call : Except PyErr String)
    (loadsR : String → Option ReviewJson) : Except PyErr String :=
  match plotsGetPlots plots_json with
  | .error e => .error e
  | .ok _ =>
    match call with
    | .error e => .error e
    | .ok resp =>
      match extract_json loadsR resp with
      | none => .error (.jsonDecodeError resp)
      | some rj =>
        match rj.revised with
        | some s => .ok s
        | none => .error .keyError

/-- The try-block of v2 review_worksheet: capability call, _extract_json,
then `final_latex = review_json.get('revised_latex')` with
`if not final_latex: raise KeyError(...)` (None or an empty string both
raise). -/
def review_body_v2 (call : Except PyErr String)
    (loadsR : String → Option ReviewJson) : Except PyErr String :=
  match call with
  | .error e => .error e
  | .ok resp =>
    match extract_json loadsR resp with
    | none => .error (.jsonDecodeError resp)
    | some rj =>
      match rj.revised with
      | some s => if s.isEmpty then .error .keyError else .ok s
      | none => .error .keyError

/-- v2 review_worksheet.  Its prompt (built before the try block) evaluates
`plots_json.get('plots', [])`, whose AttributeError on a non-dict is NOT
caught.  The try block's failure is caught only for
(json.JSONDecodeError, KeyError, AttributeError), in which case the
un-reviewed draft is returned; any other exception propagates. -/
def review_worksheet_v2 (plots_json : Decoded) (call : Except PyErr String)
    (loadsR : String → Option ReviewJson) (full_latex : String) :
    Except PyErr String :=
  match plotsGetPlots plots_json with
  | .error e => .error e
  | .ok _ =>
    match review_body_v2 call loadsR with
    | .ok s => .ok s
    | .error e => if caughtByReview e then .ok full_latex else .error e

/-- Whether v2's reviewer took its fallback path (the path on which it
prints the degradation WARNING and returns the un-reviewed draft). -/
def review_v2_degraded (call : Except PyErr String)
    (loadsR : String → Option ReviewJson) : Bool :=
  match review_body_v2 call loadsR with
  | .error e => caughtByReview e
  | .ok _ => false

/-! ## The orchestrators (main) -/

/-- The observable outcome of one run of main: the final worksheet written
to final_worksheet.tex, an abort via the first except tuple, an abort via
`except Exception`, or an exception propagating out of main (which the
source never allows for the classes in PyErr). -/
inductive MainOutcome where
  | completed (written : String)
  | abortedCritical (e : PyErr)
  | abortedUnexpected (e : PyErr)
  | propagated (e : PyErr)
  deriving DecidableEq, Repr

/-- main's two except clauses, identical in v1 and v2: the four-class tuple
first, then `except Exception`; an exception matching neither would
propagate. -/
def mainHandler (body : Except PyErr String) : MainOutcome :=
  match body with
  | .ok s => .completed s
  | .error e =>
    if matchesCriticalTuple e then .abortedCritical e
    else if derivesException e then .abortedUnexpected e
    else .propagated e

/-- True exactly on the propagated outcome. -/
def propagates : MainOutcome → Bool
  | .propagated _ => true
  | _ => false

/-- The per-run outcomes of v1 main's external interactions.  loadKey and
syllabus stand for load_api_key and get_and_generate_syllabus (their
artifacts do not steer later control flow, only their success or raised
exception does); part1Call/part2Call/reviewCall are the raw capability
responses; loads and reviewLoads are json.loads on this run's inputs. -/
structure Env1 where
  loadKey : Except PyErr Unit
  syllabus : Except PyErr Unit
  spawn : SpawnOutcome
  loads : String → Option Decoded
  part1Call : Except PyErr String
  part2Call : Except PyErr String
  reviewCall : Except PyErr String
  reviewLoads : String → Option ReviewJson

/-- The try-block of v1 main: load_api_key, syllabus, generate_plots,
part 1 and part 2 (each artifact the latex-extraction of its raw response),
review; the first raised exception short-circuits the chain. -/
def main_body_v1 (env : Env1) : Except PyErr String :=
  match env.loadKey with
  | .error e => .error e
  | .ok _ =>
    match env.syllabus with
    | .error e => .error e
    | .ok _ =>
      match (generate_plots_v1 env.spawn env.loads).1 with
      | .error e => .error e
      | .ok plots =>
        match env.part1Call with
        | .error e => .error e
        | .ok r1 =>
          let _latex_part1 := extract_code r1 "latex"
          match env.part2Call with
          | .error e => .error e
          | .ok r2 =>
            let _full_latex := extract_code r2 "latex"
            review_worksheet_v1 plots env.reviewCall env.reviewLoads

/-- v1 main: the stage chain inside the try, then the two except clauses;
on full success the review's result is written to final_worksheet.tex. -/
def main1 (env : Env1) : MainOutcome := mainHandler (main_body_v1 env)

/-- The per-run outcomes of v2 main's external interactions. -/
structure Env2 where
  loadKey : Except PyErr Unit
  syllabus : Except PyErr Unit
  spawn : SpawnOutcome
  loads : String → Option Decoded
  worksheetCall : Except PyErr String
  reviewCall : Except PyErr String
  reviewLoads : String → Option ReviewJson

/-- The try-block of v2 main: load_api_key, syllabus, generate_plots,
generate_full_worksheet (consuming the plots value), review_worksheet
(fault-tolerant); the first raised exception short-circuits the chain. -/
def main_body_v2 (env : Env2) : Except PyErr String :=
  match env.loadKey with
  | .error e => .error e
  | .ok _ =>
    match env.syllabus with
    | .error e => .error e
    | .ok _ =>
      match (generate_plots_v2 env.spawn env.loads).1 with
      | .error e => .error e
      | .ok plots =>
        match generate_full_worksheet_v2 plots env.worksheetCall with
        | .error e => .error e
        | .ok draft => review_worksheet_v2 plots env.reviewCall env.reviewLoads draft

/-- v2 main: the stage chain inside the try, then the two except clauses;
on full success the review's result is written to final_worksheet.tex. -/
def main2 (env : Env2) : MainOutcome := mainHandler (main_body_v2 env)

/-! ## Concrete fixtures for witnesses and counterexamples -/

/-- A well-formed plot-metadata record. -/
def pA : Plot := ⟨some "plots/a.png", some "a bar chart", []⟩

/-- json.loads behaviour: the stdout parses to a dict with one plot. -/
def loadsPA : String → Option Decoded := fun _ => some (.dict (some [pA]))

/-- json.loads behaviour: parsing fails (JSONDecodeError). -/
def loadsNone : String → Option Decoded := fun _ => none

/-- json.loads behaviour: the stdout parses to a dict with an empty plots
list. -/
def loadsEmptyPlots : String → Option Decoded := fun _ => some (.dict (some []))

/-- json.loads behaviour: the stdout parses to a dict with no "plots" key. -/
def loadsNoPlotsField : String → Option Decoded := fun _ => some (.dict none)

/-- Reviewer json.loads behaviour: parsing fails everywhere. -/
def rloadsNone : String → Option ReviewJson := fun _ => none

/-- Reviewer json.loads behaviour: a dict with a revised_latex value. -/
def rloadsFinal : String → Option ReviewJson := fun _ => some ⟨some "final-latex"⟩

/-- A v2 run in which every stage succeeds except the reviewer's decode. -/
def envC2 : Env2 :=
  ⟨.ok (), .ok (), .exited 0 "plots-stdout" "", loadsPA, .ok "draft-latex",
    .ok "review-resp", rloadsNone⟩

/-- A v2 run in which the reviewer's capability call raises Timeout. -/
def envC3 : Env2 :=
  ⟨.ok (), .ok (), .exited 0 "plots-stdout" "", loadsPA, .ok "draft-latex",
    .error .requestException, rloadsNone⟩

/-- A v2 run whose generated program exits 0 printing an empty plots
collection. -/
def envC5 : Env2 :=
  ⟨.ok (), .ok (), .exited 0 "empty-plots-stdout" "", loadsEmptyPlots,
    .ok "worksheet-resp", .ok "review-resp", rloadsNone⟩

/-- A v1 run whose generated program exits 0 printing a JSON object with no
"plots" key; every later stage succeeds. -/
def envC9 : Env1 :=
  ⟨.ok (), .ok (), .exited 0 "foo-stdout" "", loadsNoPlotsField, .ok "part1-resp",
    .ok "part2-resp", .ok "review-resp", rloadsFinal⟩

/-- A v1 run whose generated program exits 0 with stdout that fails to
parse; every later stage would succeed. -/
def envC4w : Env1 :=
  ⟨.ok (), .ok (), .exited 0 "bad-stdout" "", loadsNone, .ok "part1-resp",
    .ok "part2-resp", .ok "review-resp", rloadsFinal⟩

/-- JSON encoding of a boolean, as json.dumps renders it. -/
def encB : Bool → String := fun b => if b then "true" else "false"

/-- JSON decoding of a boolean, as json.loads parses it. -/
def decB : String → Option Bool := fun s =>
  if s = "true" then some true else if s = "false" then some false else none

/-! ## Lemmas about the fence search -/

theorem lpre_self_append (l r : List Char) : lpre l (l ++ r) = true := by
  induction l with
  | nil => rfl
  | cons a t ih => simp [lpre, ih]

theorem mem_of_lpre {p l : List Char} {a : Char}
    (h : lpre p l = true) (ha : a ∈ p) : a ∈ l := by
  induction p generalizing l with
  | nil => cases ha
  | cons x xs ih =>
    cases l with
    | nil => simp [lpre] at h
    | cons y ys =>
      simp only [lpre, Bool.and_eq_true, beq_iff_eq] at h
      rcases List.mem_cons.mp ha with rfl | hmem
      · rw [h.1]; exact List.mem_cons_self _ _
      · exact List.mem_cons_of_mem _ (ih h.2 hmem)

theorem substrIdx_cons_none {pat : List Char} {c : Char} {rest : List Char}
    (h : substrIdx pat (c :: rest) = none) :
    lpre pat (c :: rest) = false ∧ substrIdx pat rest = none := by
  simp only [substrIdx] at h
  split at h
  · exact absurd h (by simp)
  · next hp => exact ⟨by simpa using hp, by simpa using h⟩

theorem closer_not_mid (c : Char) (X' : List Char)
    (h : lpre closerL (c :: X') = false) :
    lpre closerL (c :: (X' ++ closerL)) = false := by
  match X' with
  | [] => simp [closerL, tickL, lpre]
  | [c2] => simp [closerL, tickL, lpre]
  | [c2, c3] => simp [closerL, tickL, lpre]
  | c2 :: c3 :: c4 :: X'' =>
    simp only [closerL, tickL, lpre, List.cons_append,
      Bool.and_eq_false_iff] at h ⊢
    exact h

theorem substrIdx_append_closer : ∀ (X : List Char), substrIdx closerL X = none →
    substrIdx closerL (X ++ closerL) = some X.length := by
  intro X
  induction X with
  | nil => intro _; decide
  | cons c X' ih =>
    intro h
    obtain ⟨h1, h2⟩ := substrIdx_cons_none h
    have hnp := closer_not_mid c X' h1
    rw [List.cons_append]
    simp [substrIdx, hnp, ih h2]

theorem fenceSearch_append (a : Char) (o cl rest : List Char) (j : Nat)
    (hj : substrIdx cl rest = some j) :
    fenceSearch (a :: o) cl ((a :: o) ++ rest) = some (rest.take j) := by
  have hpre : lpre (a :: o) (a :: (o ++ rest)) = true := by
    have := lpre_self_append (a :: o) rest
    simpa using this
  have hd : (a :: (o ++ rest)).drop (a :: o).length = rest := by
    simp [List.drop_left]
  rw [List.cons_append]
  simp only [fenceSearch, hpre, if_true, hd, hj]

theorem extract_code_wrap (X tag : String) (hc : substrIdx closerL X.data = none)
    (hs : pstrip X.data = X.data) : extract_code (wrapFence X tag) tag = X := by
  have hfs : fenceSearch (openerL tag.data) closerL
      (openerL tag.data ++ (X.data ++ closerL)) = some X.data := by
    have h1 : substrIdx closerL (X.data ++ closerL) = some X.data.length :=
      substrIdx_append_closer _ hc
    have h2 := fenceSearch_append '`' ('`' :: '`' :: (tag.data ++ ['\n'])) closerL
      (X.data ++ closerL) X.data.length h1
    have ho : openerL tag.data = '`' :: '`' :: '`' :: (tag.data ++ ['\n']) := by
      simp [openerL, tickL]
    rw [ho]
    simpa [List.take_left] using h2
  have hw : (wrapFence X tag).data = openerL tag.data ++ (X.data ++ closerL) := by
    simp [wrapFence, List.append_assoc]
  show String.mk (extractCodeL (wrapFence X tag).data tag.data) = X
  rw [hw]
  unfold extractCodeL
  rw [hfs]
  show String.mk (pstrip X.data) = X
  rw [hs]

theorem substrIdx_closer_none_of_noNl (X : List Char) (h : '\n' ∉ X) :
    substrIdx closerL X = none := by
  induction X with
  | nil => decide
  | cons c rest ih =>
    have hc : ('\n' == c) = false := by
      simp only [beq_eq_false_iff_ne, ne_eq]
      intro he
      exact h (he ▸ List.mem_cons_self c rest)
    have hp : lpre closerL (c :: rest) = false := by
      simp [closerL, tickL, lpre, hc]
    have ht : '\n' ∉ rest := fun hm => h (List.mem_cons_of_mem _ hm)
    simp [substrIdx, hp, ih ht]

theorem fenceSearch_none_of_noNl (tagL : List Char) :
    ∀ (s : List Char), '\n' ∉ s → fenceSearch (openerL tagL) closerL s = none := by
  intro s
  induction s with
  | nil => intro _; rfl
  | cons c rest ih =>
    intro h
    cases hx : lpre (openerL tagL) (c :: rest) with
    | true =>
      have : ('\n' : Char) ∈ c :: rest :=
        mem_of_lpre hx (by simp [openerL, tickL])
      exact absurd this h
    | false =>
      have ht : '\n' ∉ rest := fun hm => h (List.mem_cons_of_mem _ hm)
      simp [fenceSearch, hx, ih ht]

theorem extract_code_id_of_plain (text tag : String) (hnl : '\n' ∉ text.data)
    (hs : pstrip text.data = text.data) (ht : lpre tickL text.data = false) :
    extract_code text tag = text := by
  show String.mk (extractCodeL text.data tag.data) = text
  unfold extractCodeL
  rw [fenceSearch_none_of_noNl tag.data text.data hnl]
  simp only [hs, ht, Bool.false_and, if_false]
  rfl

/-! ## Claim theorems -/

/-- Claim C1: for every call to the sandbox run operation (generate_plots in
either workflow version), regardless of outcome — success, non-zero child
exit, stdout decode failure, or an exception raised during spawn — the
scratch file temp_plot_script.py no longer exists on disk when the call
returns. -/
theorem claim_C1_cleanup (s : SpawnOutcome) (loads : String → Option Decoded) :
    (generate_plots_v1 s loads).2 = false ∧ (generate_plots_v2 s loads).2 = false :=
  ⟨rfl, rfl⟩

theorem propagates_mainHandler (b : Except PyErr String) :
    propagates (mainHandler b) = false := by
  match b with
  | .ok s => rfl
  | .error e => cases e <;> rfl

/-- Claim C10: the top-level orchestrator never propagates an exception to
its caller — every failure raised by any stage is caught by one of main's
two except clauses (every exception class the stages raise derives from
Exception), so main returns normally. -/
theorem claim_C10_no_propagation :
    (∀ env : Env1, propagates (main1 env) = false) ∧
    (∀ env : Env2, propagates (main2 env) = false) :=
  ⟨fun _ => propagates_mainHandler _, fun _ => propagates_mainHandler _⟩

/-- Claim C7 counterexample: for X = " x " (no embedded fence sequences, but
with surrounding whitespace) the round trip returns the stripped text "x",
not X — group(1).strip() trims the interior, so the claim as stated fails. -/
theorem claim_C7_counterexample :
    extract_code (wrapFence " x " "python") "python" = "x" ∧
    ((extract_code (wrapFence " x " "python") "python") == " x ") = false :=
  ⟨by decide, by decide⟩

/-- Claim C7 as amended: for every text X that contains no closing-fence
sequence (newline followed by three backticks) and equals its own strip
(no leading or trailing whitespace), and every language tag,
extractCode(wrap_in_fence(X, tag), tag) = X. -/
theorem claim_C7_amended (X tag : String) (hc : substrIdx closerL X.data = none)
    (hs : pstrip X.data = X.data) : extract_code (wrapFence X tag) tag = X :=
  extract_code_wrap X tag hc hs

/-- Claim C7 witness: a concrete multi-line code body round-trips through a
python-tagged fence. -/
theorem claim_C7_witness :
    substrIdx closerL "line1\nline2".data = none ∧
    pstrip "line1\nline2".data = "line1\nline2".data ∧
    extract_code (wrapFence "line1\nline2" "python") "python" = "line1\nline2" :=
  ⟨by decide, by decide, claim_C7_amended "line1\nline2" "python" (by decide) (by decide)⟩

/-- Claim C8 counterexample: on input " hello " (neither fence pattern
matches) extract_code returns the input unchanged, NOT the trimmed input:
the last-resort branch is `return text` with no strip. -/
theorem claim_C8_counterexample :
    extract_code " hello " "python" = " hello " ∧
    ((extract_code " hello " "python") == pyStrip " hello ") = false :=
  ⟨by decide, by decide⟩

/-- Claim C8 as amended: for every input text on which neither the tagged
fence search nor the generic fence wrapping matches, extract_code does not
raise and returns the input text unchanged (without trimming). -/
theorem claim_C8_amended (text tag : String)
    (h1 : fenceSearch (openerL tag.data) closerL text.data = none)
    (h2 : (lpre tickL (pstrip text.data) && lsuf tickL (pstrip text.data)) = false) :
    extract_code text tag = text := by
  show String.mk (extractCodeL text.data tag.data) = text
  unfold extractCodeL
  rw [h1]
  simp only [h2, if_false]
  rfl

/-- Claim C8 witness: a fenceless, untrimmed input comes back unchanged. -/
theorem claim_C8_witness :
    fenceSearch (openerL "python".data) closerL " hi there ".data = none ∧
    (lpre tickL (pstrip " hi there ".data) && lsuf tickL (pstrip " hi there ".data)) = false ∧
    extract_code " hi there " "python" = " hi there " :=
  ⟨by decide, by decide, claim_C8_amended " hi there " "python" (by decide) (by decide)⟩

/-- Claim C6: extractStructured round-trips.  The external json codec is
abstracted as an encode/decode pair with its documented round-trip property;
the side conditions are facts about json.dumps output (a single line, no
surrounding whitespace, never starting with backticks).  Both the fenced
encoding and the bare encoding decode back to the original object. -/
theorem claim_C6_roundtrip (J : Type) (enc : J → String) (dec : String → Option J)
    (o : J)
    (hround : ∀ x, dec (enc x) = some x)
    (hnl : '\n' ∉ (enc o).data)
    (hs : pstrip (enc o).data = (enc o).data)
    (ht : lpre tickL (enc o).data = false) :
    extract_json dec (wrapFence (enc o) "json") = some o ∧
    extract_json dec (enc o) = some o := by
  have hc : substrIdx closerL (enc o).data = none :=
    substrIdx_closer_none_of_noNl _ hnl
  constructor
  · unfold extract_json
    rw [extract_code_wrap (enc o) "json" hc hs, hround]
  · unfold extract_json
    rw [extract_code_id_of_plain (enc o) "json" hnl hs ht, hround]

/-- Claim C6 witness: the boolean codec (exactly json.dumps/json.loads on a
boolean) round-trips through the extractor, fenced and bare. -/
theorem claim_C6_witness :
    extract_json decB (wrapFence (encB true) "json") = some true ∧
    extract_json decB (encB true) = some true :=
  claim_C6_roundtrip Bool encB decB true
    (fun x => match x with | true => rfl | false => rfl)
    (by decide) (by decide) (by decide)

/-- Claim C2: if the v2 reviewer's extraction or structural validation fails
(the response does not decode, or the decoded object lacks revised_latex),
the run still completes and the final output equals the pre-review draft,
with the degradation warning path taken (Done degraded, not Failed). -/
theorem claim_C2_review_degrades (env : Env2) (plots : Decoded) (pl : List Plot)
    (draft resp : String)
    (h1 : env.loadKey = .ok ()) (h2 : env.syllabus = .ok ())
    (h3 : (generate_plots_v2 env.spawn env.loads).1 = .ok plots)
    (h4 : generate_full_worksheet_v2 plots env.worksheetCall = .ok draft)
    (h5 : plotsGetPlots plots = .ok pl)
    (h6 : env.reviewCall = .ok resp)
    (h7 : extract_json env.reviewLoads resp = none ∨
          extract_json env.reviewLoads resp = some ⟨none⟩) :
    main2 env = .completed draft ∧
    review_v2_degraded env.reviewCall env.reviewLoads = true := by
  have hbody : review_body_v2 env.reviewCall env.reviewLoads = .error (.jsonDecodeError resp) ∨
      review_body_v2 env.reviewCall env.reviewLoads = .error .keyError := by
    rcases h7 with h7 | h7
    · left; simp [review_body_v2, h6, h7]
    · right; simp [review_body_v2, h6, h7]
  have hrev : review_worksheet_v2 plots env.reviewCall env.reviewLoads draft = .ok draft := by
    rcases hbody with hb | hb <;> simp [review_worksheet_v2, h5, hb, caughtByReview]
  have hdeg : review_v2_degraded env.reviewCall env.reviewLoads = true := by
    rcases hbody with hb | hb <;> simp [review_v2_degraded, hb, caughtByReview]
  refine ⟨?_, hdeg⟩
  show mainHandler (main_body_v2 env) = .completed draft
  simp only [main_body_v2, h1, h2, h3, h4, hrev]
  rfl

/-- Claim C2 witness: a concrete v2 run whose reviewer response never
decodes ends completed with the un-reviewed draft and the degradation flag
set. -/
theorem claim_C2_witness :
    main2 envC2 = .completed "draft-latex" ∧
    review_v2_degraded envC2.reviewCall envC2.reviewLoads = true :=
  claim_C2_review_degrades envC2 (.dict (some [pA])) [pA] "draft-latex" "review-resp"
    rfl rfl rfl rfl rfl rfl (Or.inl rfl)

/-- Claim C3 (code_bug evidence): when the v2 reviewer's capability call
raises Timeout (a RequestException), the reviewer's except clause
(json.JSONDecodeError, KeyError, AttributeError) does not catch it, so the
run aborts through main's critical handler instead of completing degraded
with the draft. -/
theorem claim_C3_review_timeout_aborts :
    main2 envC3 = .abortedCritical .requestException ∧
    review_v2_degraded envC3.reviewCall envC3.reviewLoads = false :=
  ⟨rfl, rfl⟩

/-- Claim C4 counterexample: in v2, a zero-exit run whose stdout fails to
decode does NOT report a DecodeError: generate_plots absorbs it and returns
the empty plots object. -/
theorem claim_C4_counterexample :
    (generate_plots_v2 (.exited 0 "bad-stdout" "") loadsNone).1 = .ok (.dict (some [])) ∧
    isErrorE (generate_plots_v2 (.exited 0 "bad-stdout" "") loadsNone).1 = false :=
  ⟨rfl, rfl⟩

/-- Claim C4 as amended: on a zero-exit run with undecodable stdout, v1's
generate_plots re-raises the JSONDecodeError carrying the raw stdout and the
run aborts (fatal), while v2's generate_plots prints the raw stdout as a
warning and returns the empty plots object, so the v2 sandbox stage itself
does not fail. -/
theorem claim_C4_amended (env : Env1) (out err : String)
    (h1 : env.loadKey = .ok ()) (h2 : env.syllabus = .ok ())
    (h3 : env.spawn = .exited 0 out err) (h4 : env.loads out = none) :
    (generate_plots_v1 (.exited 0 out err) env.loads).1 = .error (.jsonDecodeError out) ∧
    (generate_plots_v2 (.exited 0 out err) env.loads).1 = .ok (.dict (some [])) ∧
    main1 env = .abortedCritical (.jsonDecodeError out) := by
  have hv1 : (generate_plots_v1 (.exited 0 out err) env.loads).1 = .error (.jsonDecodeError out) := by
    simp [generate_plots_v1, pyTryFinally, plots_body_v1, h4]
  have hv2 : (generate_plots_v2 (.exited 0 out err) env.loads).1 = .ok (.dict (some [])) := by
    simp [generate_plots_v2, pyTryFinally, plots_body_v2, h4]
  refine ⟨hv1, hv2, ?_⟩
  show mainHandler (main_body_v1 env) = _
  simp only [main_body_v1, h1, h2, h3, hv1]
  rfl

/-- Claim C4 witness: a concrete v1 run whose generated program exits 0 with
unparsable stdout aborts with the JSONDecodeError carrying that stdout,
while v2 absorbs the same outcome. -/
theorem claim_C4_witness :
    (generate_plots_v1 (.exited 0 "bad-stdout" "") envC4w.loads).1 = .error (.jsonDecodeError "bad-stdout") ∧
    (generate_plots_v2 (.exited 0 "bad-stdout" "") envC4w.loads).1 = .ok (.dict (some [])) ∧
    main1 envC4w = .abortedCritical (.jsonDecodeError "bad-stdout") :=
  claim_C4_amended envC4w "bad-stdout" "" rfl rfl rfl rfl

/-- Claim C5 (code_bug evidence): a zero-exit program printing an empty
plots collection is accepted by the v2 sandbox stage as a ProgramResult with
an empty collection, but the downstream worksheet stage then raises
NameError (the prompt f-string reads the loop variable `plot`, unbound when
the plot list is empty), so the run aborts instead of proceeding. -/
theorem claim_C5_empty_plots_bug :
    (generate_plots_v2 (.exited 0 "empty-plots-stdout" "") loadsEmptyPlots).1 = .ok (.dict (some [])) ∧
    generate_full_worksheet_v2 (.dict (some [])) (.ok "worksheet-resp") = .error .nameError ∧
    main2 envC5 = .abortedUnexpected .nameError :=
  ⟨rfl, rfl, rfl⟩

/-- Claim C9 counterexample: a zero-exit run whose decoded stdout lacks the
"plots" field is NOT rejected — v1's generate_plots returns it unchanged
(there is no ValidationError in the code) and the whole v1 run completes. -/
theorem claim_C9_counterexample :
    (generate_plots_v1 (.exited 0 "foo-stdout" "") loadsNoPlotsField).1 = .ok (.dict none) ∧
    main1 envC9 = .completed "final-latex" :=
  ⟨rfl, rfl⟩

/-- Claim C9 as amended: generate_plots performs no shape validation on the
decoded result — in both versions any successfully decoded value is
returned as-is, whether or not it contains the "plots" field. -/
theorem claim_C9_amended (out err : String) (d : Decoded)
    (loads : String → Option Decoded) (h : loads out = some d) :
    (generate_plots_v1 (.exited 0 out err) loads).1 = .ok d ∧
    (generate_plots_v2 (.exited 0 out err) loads).1 = .ok d := by
  constructor
  · simp [generate_plots_v1, pyTryFinally, plots_body_v1, h]
  · simp [generate_plots_v2, pyTryFinally, plots_body_v2, h]

/-- Claim C9 witness: the concrete decoded object with no "plots" key is
accepted unchanged by both versions. -/
theorem claim_C9_witness :
    (generate_plots_v1 (.exited 0 "foo-stdout" "") loadsNoPlotsField).1 = .ok (.dict none) ∧
    (generate_plots_v2 (.exited 0 "foo-stdout" "") loadsNoPlotsField).1 = .ok (.dict none) :=
  claim_C9_amended "foo-stdout" "" (.dict none) loadsNoPlotsField rfl
